import Mathlib

/-!
Shallow embedding of `src/decision_scorecard.py` (the "Lock In" decision
wizard) together with a spec-modelled verdict classifier for the verdict
engine described by the specification but absent from the source tree.

Conventions of the embedding:
* Python strings are Lean `String`s; `s.strip()` is `pystrip`.
* `st.session_state` is the record `WizardState`; the answer dictionary is an
  association list `List (String × String)`.
* The external collaborators (the OpenAI chat completion and Python's
  `json.loads`) are oracles supplied as function parameters in `Oracles`.
* A Streamlit button handler becomes a function
  `WizardState → WizardState × Option String`; the second component is the
  error message surfaced by `st.error` (or the message of an uncaught
  exception), `none` when the handler succeeds.
-/

namespace Scorecard

/-- Whitespace characters recognised by Python's default `str.strip()`
(ASCII fragment: space, tab, newline, carriage return, vertical tab,
form feed). -/
def py_isspace (c : Char) : Bool :=
  c = ' ' || c = '\t' || c = '\n' || c = '\r' || c = '\x0b' || c = '\x0c'

/-- Removal of trailing whitespace from a character list (the right half of
Python's `str.strip()`). -/
def rstrip_chars (l : List Char) : List Char :=
  (l.reverse.dropWhile py_isspace).reverse

/-- Python's `str.strip()` on a character list: drop leading whitespace, then
trailing whitespace. -/
def py_strip (l : List Char) : List Char :=
  rstrip_chars (l.dropWhile py_isspace)

/-- Python's `s.strip()` on strings. -/
def pystrip (s : String) : String :=
  String.mk (py_strip s.toList)

/-- Python's `(x or "")` for an optional string followed by `.strip()`:
the idiom `(val or "").strip()` used throughout the source. -/
def pystripO (s : Option String) : String :=
  pystrip (s.getD "")

-- Basic facts about `dropWhile` used below.

theorem mem_of_mem_dropWhile {p : Char → Bool} {l : List Char} {a : Char}
    (h : a ∈ l.dropWhile p) : a ∈ l := by
  induction l with
  | nil => simp at h
  | cons b t ih =>
    by_cases hb : p b
    · simp only [List.dropWhile_cons, hb, if_true] at h
      exact List.mem_cons_of_mem _ (ih h)
    · simp only [List.dropWhile_cons, hb, if_false] at h
      exact h

theorem mem_dropWhile_of_not {p : Char → Bool} {l : List Char} {a : Char}
    (ha : a ∈ l) (hp : p a = false) : a ∈ l.dropWhile p := by
  induction l with
  | nil => simp at ha
  | cons b t ih =>
    by_cases hb : p b
    · simp only [List.dropWhile_cons, hb, if_true]
      rcases List.mem_cons.mp ha with rfl | h
      · simp [hb] at hp
      · exact ih h
    · simp only [List.dropWhile_cons, hb, if_false]
      exact ha

theorem dropWhile_eq_nil_of_all {p : Char → Bool} {l : List Char}
    (h : ∀ c ∈ l, p c = true) : l.dropWhile p = [] := by
  induction l with
  | nil => rfl
  | cons b t ih =>
    have hb : p b = true := h b (List.mem_cons_self b t)
    simp only [List.dropWhile_cons, hb, if_true]
    exact ih (fun c hc => h c (List.mem_cons_of_mem _ hc))

theorem head_not_of_dropWhile_cons {p : Char → Bool} {l t : List Char} {a : Char}
    (h : l.dropWhile p = a :: t) : p a = false := by
  induction l with
  | nil => simp at h
  | cons b r ih =>
    by_cases hb : p b
    · simp only [List.dropWhile_cons, hb, if_true] at h
      exact ih h
    · simp only [List.dropWhile_cons, hb, if_false] at h
      cases h
      simpa using hb

theorem dropWhile_dropWhile (p : Char → Bool) (l : List Char) :
    (l.dropWhile p).dropWhile p = l.dropWhile p := by
  induction l with
  | nil => rfl
  | cons b t ih =>
    by_cases hb : p b
    · simp only [List.dropWhile_cons, hb, if_true]
      exact ih
    · simp only [List.dropWhile_cons, hb, if_false]
      simp [List.dropWhile_cons, hb]

theorem mem_rstrip_of_not {l : List Char} {a : Char}
    (ha : a ∈ l) (hp : py_isspace a = false) : a ∈ rstrip_chars l := by
  unfold rstrip_chars
  exact List.mem_reverse.mpr
    (mem_dropWhile_of_not (List.mem_reverse.mpr ha) hp)

theorem mem_of_mem_rstrip {l : List Char} {a : Char}
    (h : a ∈ rstrip_chars l) : a ∈ l := by
  unfold rstrip_chars at h
  exact List.mem_reverse.mp (mem_of_mem_dropWhile (List.mem_reverse.mp h))

theorem mem_of_mem_py_strip {l : List Char} {a : Char}
    (h : a ∈ py_strip l) : a ∈ l := by
  unfold py_strip at h
  exact mem_of_mem_dropWhile (mem_of_mem_rstrip h)

theorem rstrip_cons_of_head {a : Char} {t : List Char}
    (ha : py_isspace a = false) :
    rstrip_chars (a :: t) = a :: rstrip_chars t := by
  unfold rstrip_chars
  rw [List.reverse_cons, List.dropWhile_append]
  rcases h : (t.reverse.dropWhile py_isspace) with _ | ⟨b, r⟩
  · simp [h, List.dropWhile_cons, ha]
  · simp [h]

theorem rstrip_rstrip (l : List Char) :
    rstrip_chars (rstrip_chars l) = rstrip_chars l := by
  unfold rstrip_chars
  rw [List.reverse_reverse, dropWhile_dropWhile]

theorem py_strip_idem (l : List Char) :
    py_strip (py_strip l) = py_strip l := by
  unfold py_strip
  rcases h : (l.dropWhile py_isspace) with _ | ⟨a, t⟩
  · simp [rstrip_chars]
  · have ha : py_isspace a = false := head_not_of_dropWhile_cons h
    rw [rstrip_cons_of_head ha]
    have hdrop : (a :: rstrip_chars t).dropWhile py_isspace = a :: rstrip_chars t := by
      simp [List.dropWhile_cons, ha]
    rw [hdrop, ← rstrip_cons_of_head ha, rstrip_rstrip]

theorem toList_mk (l : List Char) : (String.mk l).toList = l := rfl

theorem pystrip_idem (s : String) : pystrip (pystrip s) = pystrip s := by
  unfold pystrip
  rw [toList_mk, py_strip_idem]

theorem py_strip_eq_nil_iff (l : List Char) :
    py_strip l = [] ↔ ∀ c ∈ l, py_isspace c = true := by
  constructor
  · intro h c hc
    by_contra hcw
    have hcw' : py_isspace c = false := by
      cases hcs : py_isspace c
      · rfl
      · exact absurd hcs hcw
    have h1 : c ∈ l.dropWhile py_isspace := mem_dropWhile_of_not hc hcw'
    have h2 : c ∈ py_strip l := mem_rstrip_of_not h1 hcw'
    rw [h] at h2
    simp at h2
  · intro h
    unfold py_strip
    rw [dropWhile_eq_nil_of_all h]
    rfl

theorem mk_eq_empty_iff (l : List Char) : String.mk l = "" ↔ l = [] := by
  constructor
  · intro h
    have : (String.mk l).toList = ("" : String).toList := by rw [h]
    simpa using this
  · intro h; rw [h]

theorem pystrip_eq_empty_iff (s : String) :
    pystrip s = "" ↔ ∀ c ∈ s.toList, py_isspace c = true := by
  unfold pystrip
  rw [mk_eq_empty_iff, py_strip_eq_nil_iff]

-- -----------------------
-- Association lists (the Python dict used for `st.session_state.answers`
-- and for JSON objects / request payloads).
-- -----------------------

/-- Lookup in an association list, mirroring Python `d.get(k)`. -/
def alist_get {α : Type} : List (String × α) → String → Option α
  | [], _ => none
  | (k0, v0) :: rest, k => if k0 = k then some v0 else alist_get rest k

/-- Update/insert in an association list, mirroring Python `d[k] = v`. -/
def alist_set {α : Type} : List (String × α) → String → α → List (String × α)
  | [], k, v => [(k, v)]
  | (k0, v0) :: rest, k, v =>
      if k0 = k then (k0, v) :: rest else (k0, v0) :: alist_set rest k v

theorem alist_get_set_self {α : Type} (l : List (String × α)) (k : String) (v : α) :
    alist_get (alist_set l k v) k = some v := by
  induction l with
  | nil => simp [alist_set, alist_get]
  | cons p rest ih =>
    obtain ⟨k0, v0⟩ := p
    by_cases h : k0 = k
    · simp [alist_set, alist_get, h]
    · simp [alist_set, alist_get, h, ih]

theorem alist_get_set_ne {α : Type} (l : List (String × α)) (k k2 : String) (v : α)
    (h : k2 ≠ k) : alist_get (alist_set l k v) k2 = alist_get l k2 := by
  induction l with
  | nil =>
    simp [alist_set, alist_get]
    intro h2
    exact absurd h2.symm h
  | cons p rest ih =>
    obtain ⟨k0, v0⟩ := p
    by_cases h0 : k0 = k
    · subst h0
      simp only [alist_set, if_true]
      have : k0 ≠ k2 := fun he => h (he.symm)
      simp [alist_get, this]
    · simp only [alist_set, h0, if_false]
      by_cases h2 : k0 = k2
      · simp [alist_get, h2]
      · simp [alist_get, h2, ih]

-- -----------------------
-- JSON values (the result of `json.loads` on a model response).
-- -----------------------

/-- JSON values as produced by Python's `json.loads` (numbers restricted to
integers; no float appears in any claim). -/
inductive Json where
  | null : Json
  | bool (b : Bool) : Json
  | num (n : Int) : Json
  | str (s : String) : Json
  | arr (elems : List Json) : Json
  | obj (fields : List (String × Json)) : Json

-- -----------------------
-- `strip_tags` / `safe_text` (source lines 55-67)
-- -----------------------

/-- Helper for the regex `<[^>]*>`: given the characters after a `<`, return
the suffix after the first `>` (the end of the match), or `none` when no `>`
follows (in which case the regex finds no match starting at that `<`). -/
def skip_gt : List Char → Option (List Char)
  | [] => none
  | c :: rest => if c = '>' then some rest else skip_gt rest

/-- `re.sub(r"<[^>]*>", "", text)`: delete every leftmost non-overlapping
tag-shaped run. Fuel-indexed structural recursion; the fuel is the length of
the list, which always suffices because each recursive call consumes at
least one character. -/
def re_sub_tags_fuel : Nat → List Char → List Char
  | _, [] => []
  | 0, l => l
  | fuel + 1, c :: rest =>
      if c = '<' then
        match skip_gt rest with
        | some rest2 => re_sub_tags_fuel fuel rest2
        | none => c :: rest
      else c :: re_sub_tags_fuel fuel rest

def re_sub_tags (l : List Char) : List Char :=
  re_sub_tags_fuel l.length l

/-- `strip_tags` (source lines 55-62): strip, delete tag-shaped runs, delete
any remaining `<` and `>` characters (`str.replace` of a single character by
the empty string is character filtering), strip again. -/
def strip_tags (text : Option String) : String :=
  let t := py_strip (text.getD "").toList
  let t := re_sub_tags t
  let t := (t.filter (fun c => c ≠ '<')).filter (fun c => c ≠ '>')
  String.mk (py_strip t)

/-- One character of Python's `html.escape` (with its default
quote replacement). -/
def html_escape_char (c : Char) : List Char :=
  if c = '&' then ['&', 'a', 'm', 'p', ';']
  else if c = '<' then ['&', 'l', 't', ';']
  else if c = '>' then ['&', 'g', 't', ';']
  else if c = '"' then ['&', 'q', 'u', 'o', 't', ';']
  else if c = '\'' then ['&', '#', 'x', '2', '7', ';']
  else [c]

/-- Python's `html.escape` over a character list. -/
def html_escape_list : List Char → List Char
  | [] => []
  | c :: rest => html_escape_char c ++ html_escape_list rest

/-- `safe_text` (source lines 65-67): strip tags then HTML-escape. -/
def safe_text (s : Option String) : String :=
  String.mk (html_escape_list (strip_tags s).toList)

/-- The four model-provided fields rendered inside `verdict_box`'s
`unsafe_allow_html` block (source lines 73-77): each is passed through
`safe_text` before interpolation into the HTML template. -/
def verdict_box_fields (want act dont blocker : Option String) : List String :=
  [safe_text want, safe_text act, safe_text dont, safe_text blocker]

theorem mem_html_escape_list {l : List Char} {c : Char}
    (h : c ∈ html_escape_list l) : ∃ a ∈ l, c ∈ html_escape_char a := by
  induction l with
  | nil => simp [html_escape_list] at h
  | cons b t ih =>
    simp only [html_escape_list, List.mem_append] at h
    rcases h with h | h
    · exact ⟨b, List.mem_cons_self b t, h⟩
    · obtain ⟨a, ha, hc⟩ := ih h
      exact ⟨a, List.mem_cons_of_mem _ ha, hc⟩

theorem strip_tags_no_angle (s : Option String) :
    ∀ c ∈ (strip_tags s).toList, c ≠ '<' ∧ c ≠ '>' := by
  intro c hc
  unfold strip_tags at hc
  rw [toList_mk] at hc
  have h1 := mem_of_mem_py_strip hc
  have h2 := List.mem_filter.mp h1
  have h3 := List.mem_filter.mp h2.1
  constructor
  · simpa using h3.2
  · simpa using h2.2

theorem safe_text_no_angle (s : Option String) :
    ∀ c ∈ (safe_text s).toList, c ≠ '<' ∧ c ≠ '>' := by
  intro c hc
  unfold safe_text at hc
  rw [toList_mk] at hc
  obtain ⟨a, ha, hc2⟩ := mem_html_escape_list hc
  have hane := strip_tags_no_angle s a ha
  unfold html_escape_char at hc2
  by_cases h1 : a = '&'
  · rw [if_pos h1] at hc2
    simp only [List.mem_cons, List.not_mem_nil, or_false] at hc2
    rcases hc2 with rfl | rfl | rfl | rfl | rfl <;> exact ⟨by decide, by decide⟩
  rw [if_neg h1] at hc2
  by_cases h2 : a = '<'
  · exact absurd h2 hane.1
  rw [if_neg h2] at hc2
  by_cases h3 : a = '>'
  · exact absurd h3 hane.2
  rw [if_neg h3] at hc2
  by_cases h4 : a = '"'
  · rw [if_pos h4] at hc2
    simp only [List.mem_cons, List.not_mem_nil, or_false] at hc2
    rcases hc2 with rfl | rfl | rfl | rfl | rfl | rfl <;> exact ⟨by decide, by decide⟩
  rw [if_neg h4] at hc2
  by_cases h5 : a = '\''
  · rw [if_pos h5] at hc2
    simp only [List.mem_cons, List.not_mem_nil, or_false] at hc2
    rcases hc2 with rfl | rfl | rfl | rfl | rfl | rfl <;> exact ⟨by decide, by decide⟩
  rw [if_neg h5] at hc2
  simp only [List.mem_singleton] at hc2
  subst hc2
  exact hane

-- -----------------------
-- Python truthiness / `int()` and the minutes normalization
-- (source lines 530-531)
-- -----------------------

/-- Python truthiness of a JSON value. -/
def py_truthy : Json → Bool
  | .null => false
  | .bool b => b
  | .num n => n != 0
  | .str s => s ≠ ""
  | .arr elems => ¬ elems.isEmpty
  | .obj fields => ¬ fields.isEmpty

/-- The value of a decimal digit character, `none` for anything else. -/
def digit_val (c : Char) : Option Nat :=
  if '0' ≤ c ∧ c ≤ '9' then some (c.toNat - '0'.toNat) else none

/-- Accumulate a decimal digit run; fails on a non-digit. -/
def digits_val : List Char → Nat → Option Nat
  | [], acc => some acc
  | c :: rest, acc =>
      match digit_val c with
      | some d => digits_val rest (acc * 10 + d)
      | none => none

/-- Parse a non-empty run of decimal digits. -/
def parse_digits (l : List Char) : Option Nat :=
  match l with
  | [] => none
  | _ => digits_val l 0

/-- Python's `int(str)` after whitespace stripping: an optional sign
followed by decimal digits; anything else raises `ValueError`. -/
def py_int_parse (l : List Char) : Option Int :=
  match l with
  | '+' :: rest => (parse_digits rest).map Int.ofNat
  | '-' :: rest => (parse_digits rest).map (fun n => -(Int.ofNat n))
  | _ => (parse_digits l).map Int.ofNat

/-- Python's `int(x)` on a JSON value: identity on integers, 0/1 on
booleans, decimal parse (surrounding whitespace allowed) on strings —
raising `ValueError` on a non-numeric string — and `TypeError` on
lists/objects/None. -/
def py_int_of : Json → Except String Int
  | .bool b => .ok (if b then 1 else 0)
  | .num n => .ok n
  | .str s =>
      match py_int_parse (py_strip s.toList) with
      | some n => .ok n
      | none => .error "ValueError"
  | _ => .error "TypeError"

def allowed_minutes : List Int := [10, 15, 20, 30, 45, 60]

/-- The minutes normalization of step 8 (source lines 530-531):
`minutes = int(a.get("minutes", 10) or 10)` then
`minutes = minutes if minutes in [10, 15, 20, 30, 45, 60] else 10`.
An exception raised by `int()` propagates (it is not caught anywhere). -/
def minutes_of (a : List (String × Json)) : Except String Int :=
  let v0 := (alist_get a "minutes").getD (.num 10)
  let v := if py_truthy v0 then v0 else .num 10
  match py_int_of v with
  | .ok m => .ok (if m ∈ allowed_minutes then m else 10)
  | .error e => .error e

-- -----------------------
-- Wizard state (the `st.session_state` keys; source lines 240-266)
-- -----------------------

/-- The wizard's session state. Field names follow the `st.session_state`
keys of the source (`show_correction` is the source's `_show_correction`,
`show_action_correction` its `_show_action_correction`). -/
structure WizardState where
  step : Nat
  answers : List (String × String)
  mirror : Option Json
  correction : String
  show_correction : Bool
  action_one : Option Json
  action_correction : String
  show_action_correction : Bool
  action_agreed : Bool
  lockin_started : Bool
  timer_started_at : Option Nat
  did_it : Option Bool

/-- The state created by the `if "…" not in st.session_state` block
(source lines 240-266). -/
def init_state : WizardState :=
  { step := 0
    answers := []
    mirror := none
    correction := ""
    show_correction := false
    action_one := none
    action_correction := ""
    show_action_correction := false
    action_agreed := false
    lockin_started := false
    timer_started_at := none
    did_it := none }

/-- `reset_all` (source lines 37-52). -/
def reset_all (st : WizardState) : WizardState :=
  { st with
    step := 0
    answers := []
    mirror := none
    correction := ""
    show_correction := false
    action_one := none
    action_correction := ""
    show_action_correction := false
    action_agreed := false
    lockin_started := false
    timer_started_at := none
    did_it := none }

/-- `go(step)` (source lines 32-34); the `st.rerun()` ends the render pass. -/
def go (n : Nat) (st : WizardState) : WizardState :=
  { st with step := n }

/-- `need(key)` (source lines 24-25): `(answers.get(key, "") or "").strip()`. -/
def need (st : WizardState) (key : String) : String :=
  pystrip ((alist_get st.answers key).getD "")

/-- `setv(key, val)` (source lines 28-29):
`answers[key] = (val or "").strip()`. -/
def setv (st : WizardState) (key : String) (val : Option String) : WizardState :=
  { st with answers := alist_set st.answers key (pystripO val) }

-- -----------------------
-- External collaborators (OpenAI chat completion, `json.loads`)
-- -----------------------

/-- The external collaborators of the app, supplied as oracles:
`api_mirror`/`api_action` give the chat-completion response content for the
`ai_mirror` / `ai_one_thing` request determined by its JSON payload (the
system prompts are fixed), and `parse` models `json.loads` (`none` for text
on which it raises `json.JSONDecodeError`). -/
structure Oracles where
  api_mirror : List (String × Json) → String
  api_action : List (String × Json) → String
  parse : String → Option Json

/-- `safe_json_loads` (source lines 19-21): strip, then `json.loads`; a parse
failure is an uncaught `json.JSONDecodeError`. There is no try/except. -/
def safe_json_loads (o : Oracles) (txt : Option String) : Except String Json :=
  let t := pystripO txt
  match o.parse t with
  | some j => .ok j
  | none => .error "JSONDecodeError"

/-- The request payload of `ai_mirror` (source lines 153-165). -/
def mirror_payload (answers : List (String × String)) (correction : Option String) :
    List (String × Json) :=
  [("decision", .str ((alist_get answers "decision").getD "")),
   ("why_matters", .str ((alist_get answers "why_matters").getD "")),
   ("why_not_yet", .str ((alist_get answers "why_not_yet").getD "")),
   ("if_dont", .str ((alist_get answers "if_dont").getD "")),
   ("if_do", .str ((alist_get answers "if_do").getD "")),
   ("values_ranked", .arr
      [.str ((alist_get answers "value_1").getD ""),
       .str ((alist_get answers "value_2").getD ""),
       .str ((alist_get answers "value_3").getD "")]),
   ("correction_if_any",
      if pystripO correction = "" then .null else .str (pystripO correction))]

/-- `ai_mirror` (source lines 131-175): request the mirror for the payload,
then `safe_json_loads` the response content. -/
def ai_mirror (o : Oracles) (answers : List (String × String))
    (correction : Option String) : Except String Json :=
  safe_json_loads o (some (o.api_mirror (mirror_payload answers correction)))

/-- The request payload of `ai_one_thing` (source lines 206-224). -/
def action_payload (answers : List (String × String)) (mirror_obj : Json)
    (correction : Option String) : List (String × Json) :=
  [("decision", .str ((alist_get answers "decision").getD "")),
   ("why_matters", .str ((alist_get answers "why_matters").getD "")),
   ("why_not_yet", .str ((alist_get answers "why_not_yet").getD "")),
   ("if_dont", .str ((alist_get answers "if_dont").getD "")),
   ("if_do", .str ((alist_get answers "if_do").getD "")),
   ("values_ranked", .arr
      [.str ((alist_get answers "value_1").getD ""),
       .str ((alist_get answers "value_2").getD ""),
       .str ((alist_get answers "value_3").getD "")]),
   ("mirror", mirror_obj),
   ("correction_if_any",
      if pystripO correction = "" then .null else .str (pystripO correction)),
   ("constraints", .arr
      [.str "Give ONE action only (no multi-step plan).",
       .str "Steps must be short and executable.",
       .str "Prefer creating a real artifact (sent message, drafted email, booked meeting, written doc)."])]

/-- `ai_one_thing` (source lines 178-234). -/
def ai_one_thing (o : Oracles) (answers : List (String × String))
    (mirror_obj : Json) (correction : Option String) : Except String Json :=
  safe_json_loads o (some (o.api_action (action_payload answers mirror_obj correction)))

-- -----------------------
-- Step handlers. Each "Next" first performs the render pass's widget
-- write-back (`setv` with the widget's current value), then runs the button
-- handler. The second component is the `st.error` message, if any.
-- -----------------------

/-- Step 0 (decision) "Next ➜" (source lines 288-300). -/
def step0_next (st0 : WizardState) (val : Option String) :
    WizardState × Option String :=
  let st := setv st0 "decision" val
  if need st "decision" = "" then (st, some "Write the decision in one sentence.")
  else (go 1 st, none)

/-- Step 1 (why it matters) "Next ➜" (source lines 306-324). -/
def step1_next (st0 : WizardState) (val : Option String) :
    WizardState × Option String :=
  let st := setv st0 "why_matters" val
  if need st "why_matters" = "" then (st, some "Write one short paragraph.")
  else (go 2 st, none)

/-- Step 2 (why not yet) "Next ➜" (source lines 330-348). -/
def step2_next (st0 : WizardState) (val : Option String) :
    WizardState × Option String :=
  let st := setv st0 "why_not_yet" val
  if need st "why_not_yet" = "" then (st, some "Write one short paragraph.")
  else (go 3 st, none)

/-- Step 3 (if You don't) "Next ➜" (source lines 354-372). -/
def step3_next (st0 : WizardState) (val : Option String) :
    WizardState × Option String :=
  let st := setv st0 "if_dont" val
  if need st "if_dont" = "" then (st, some "Write one short paragraph.")
  else (go 4 st, none)

/-- Step 4 (if You do) "Next ➜" (source lines 378-396). -/
def step4_next (st0 : WizardState) (val : Option String) :
    WizardState × Option String :=
  let st := setv st0 "if_do" val
  if need st "if_do" = "" then (st, some "Write one short paragraph.")
  else (go 5 st, none)

/-- Step 5 (top-3 values) "Next ➜" (source lines 404-450): write back the
three inputs, validate all three non-blank, and on success clear every
piece of derived state before `go(6)`. -/
def step5_next (st0 : WizardState) (v1 v2 v3 : Option String) :
    WizardState × Option String :=
  let st := setv (setv (setv st0 "value_1" v1) "value_2" v2) "value_3" v3
  if ¬(pystripO v1 ≠ "" ∧ pystripO v2 ≠ "" ∧ pystripO v3 ≠ "") then
    (st, some "Please fill in all three values.")
  else
    (go 6 { st with
        mirror := none
        action_one := none
        timer_started_at := none
        did_it := none
        correction := ""
        show_correction := false
        action_correction := ""
        show_action_correction := false
        action_agreed := false
        lockin_started := false }, none)

/-- The derived-state computation at the top of the step-6 render
(source lines 455-457): if `mirror` is `None`, compute it via `ai_mirror`.
An exception leaves the session state untouched (the assignment never
executes) and is surfaced by the framework. -/
def render6_compute (o : Oracles) (st : WizardState) :
    WizardState × Option String :=
  match st.mirror with
  | some _ => (st, none)
  | none =>
    match ai_mirror o st.answers none with
    | .ok m => ({ st with mirror := some m }, none)
    | .error e => (st, some e)

/-- The derived-state computation at the top of the step-7 render
(source lines 516-521): if `action_one` is `None`, compute it via
`ai_one_thing` over the answers and `mirror or {}`. -/
def render7_compute (o : Oracles) (st : WizardState) :
    WizardState × Option String :=
  match st.action_one with
  | some _ => (st, none)
  | none =>
    match ai_one_thing o st.answers (st.mirror.getD (.obj [])) none with
    | .ok a => ({ st with action_one := some a }, none)
    | .error e => (st, some e)

/-- Step 6 "Redo verdict ➜" (source lines 499-509), after the correction
text area's write-back: require a non-empty correction, then recompute the
mirror with the correction. -/
def redo_verdict (o : Oracles) (st : WizardState) : WizardState × Option String :=
  if st.correction = "" then (st, some "Write a correction first.")
  else
    match ai_mirror o st.answers (some st.correction) with
    | .ok m => ({ st with mirror := some m, show_correction := false }, none)
    | .error e => (st, some e)

/-- Step 7 "Adjust the step ➜" (source lines 598-609), after the action
correction text area's write-back. -/
def adjust_step (o : Oracles) (st : WizardState) : WizardState × Option String :=
  if st.action_correction = "" then (st, some "Write a correction first.")
  else
    match ai_one_thing o st.answers (st.mirror.getD (.obj [])) (some st.action_correction) with
    | .ok a => ({ st with action_one := some a, show_action_correction := false }, none)
    | .error e => (st, some e)

-- -----------------------
-- The global event step. One constructor per clickable button; a payload is
-- the current content of a text widget whose write-back precedes the
-- handler in script order. A handler whose button is not rendered for the
-- current state is a no-op.
-- -----------------------

inductive Event where
  | reset : Event
  | next0 (v : Option String) : Event
  | back1 (v : Option String) : Event
  | next1 (v : Option String) : Event
  | back2 (v : Option String) : Event
  | next2 (v : Option String) : Event
  | back3 (v : Option String) : Event
  | next3 (v : Option String) : Event
  | back4 (v : Option String) : Event
  | next4 (v : Option String) : Event
  | back5 (v1 v2 v3 : Option String) : Event
  | next5 (v1 v2 v3 : Option String) : Event
  | back6 : Event
  | yes_right : Event
  | no_not_exactly : Event
  | cancel_correction (corr : Option String) : Event
  | redo (corr : Option String) : Event
  | back7 : Event
  | agree : Event
  | not_exactly : Event
  | cancel_action_correction (corr : Option String) : Event
  | adjust (corr : Option String) : Event
  | back_ready : Event
  | lock_in (now : Nat) : Event
  | maybe_later : Event
  | did_yes : Event
  | did_no : Event
  | run_another : Event

/-- Dispatch a button press against the current state. Mirrors the
top-to-bottom script of the source: the `↩ Reset` button is always
rendered; every other handler is guarded by the step (and, on steps 6-7,
phase) under which its button is rendered. -/
def handle (o : Oracles) (e : Event) (st : WizardState) :
    WizardState × Option String :=
  match e with
  | .reset => (reset_all st, none)
  | .next0 v => if st.step = 0 then step0_next st v else (st, none)
  | .back1 v => if st.step = 1 then (go 0 (setv st "why_matters" v), none) else (st, none)
  | .next1 v => if st.step = 1 then step1_next st v else (st, none)
  | .back2 v => if st.step = 2 then (go 1 (setv st "why_not_yet" v), none) else (st, none)
  | .next2 v => if st.step = 2 then step2_next st v else (st, none)
  | .back3 v => if st.step = 3 then (go 2 (setv st "if_dont" v), none) else (st, none)
  | .next3 v => if st.step = 3 then step3_next st v else (st, none)
  | .back4 v => if st.step = 4 then (go 3 (setv st "if_do" v), none) else (st, none)
  | .next4 v => if st.step = 4 then step4_next st v else (st, none)
  | .back5 v1 v2 v3 =>
      if st.step = 5 then
        (go 4 (setv (setv (setv st "value_1" v1) "value_2" v2) "value_3" v3), none)
      else (st, none)
  | .next5 v1 v2 v3 => if st.step = 5 then step5_next st v1 v2 v3 else (st, none)
  | .back6 =>
      if st.step = 6 then (go 5 { st with mirror := none }, none) else (st, none)
  | .yes_right =>
      if st.step = 6 then
        (go 7 { st with
            action_one := none
            action_correction := ""
            show_action_correction := false
            action_agreed := false
            lockin_started := false
            timer_started_at := none
            did_it := none }, none)
      else (st, none)
  | .no_not_exactly =>
      if st.step = 6 then ({ st with show_correction := true }, none) else (st, none)
  | .cancel_correction c =>
      if st.step = 6 ∧ st.show_correction = true then
        ({ st with correction := pystripO c, show_correction := false }, none)
      else (st, none)
  | .redo c =>
      if st.step = 6 ∧ st.show_correction = true then
        redo_verdict o { st with correction := pystripO c }
      else (st, none)
  | .back7 =>
      if st.step = 7 ∧ st.action_agreed = false then
        (go 6 { st with
            action_one := none
            action_correction := ""
            show_action_correction := false }, none)
      else (st, none)
  | .agree =>
      if st.step = 7 ∧ st.action_agreed = false then
        ({ st with action_agreed := true }, none)
      else (st, none)
  | .not_exactly =>
      if st.step = 7 ∧ st.action_agreed = false then
        ({ st with show_action_correction := true }, none)
      else (st, none)
  | .cancel_action_correction c =>
      if st.step = 7 ∧ st.action_agreed = false ∧ st.show_action_correction = true then
        ({ st with action_correction := pystripO c, show_action_correction := false }, none)
      else (st, none)
  | .adjust c =>
      if st.step = 7 ∧ st.action_agreed = false ∧ st.show_action_correction = true then
        adjust_step o { st with action_correction := pystripO c }
      else (st, none)
  | .back_ready =>
      if st.step = 7 ∧ st.action_agreed = true ∧ st.lockin_started = false then
        ({ st with action_agreed := false }, none)
      else (st, none)
  | .lock_in now =>
      if st.step = 7 ∧ st.action_agreed = true ∧ st.lockin_started = false then
        ({ st with lockin_started := true, timer_started_at := some now }, none)
      else (st, none)
  | .maybe_later =>
      if st.step = 7 ∧ st.action_agreed = true ∧ st.lockin_started = false then
        (go 8 { st with did_it := some false }, none)
      else (st, none)
  | .did_yes =>
      if st.step = 7 ∧ st.action_agreed = true ∧ st.lockin_started = true then
        (go 8 { st with did_it := some true }, none)
      else (st, none)
  | .did_no =>
      if st.step = 7 ∧ st.action_agreed = true ∧ st.lockin_started = true then
        (go 8 { st with did_it := some false }, none)
      else (st, none)
  | .run_another =>
      if st.step = 8 then (go 0 (reset_all st), none) else (st, none)

/-- Fold a sequence of button presses through `handle`. -/
def run_events (o : Oracles) (evs : List Event) (st : WizardState) : WizardState :=
  evs.foldl (fun s e => (handle o e s).1) st

/-- The two events that reset the wizard (`↩ Reset` and
`Run another decision ➜`). -/
def is_reset_ev : Event → Bool
  | .reset => true
  | .run_another => true
  | _ => false

/-- The step-7 render reaches its Phase C (the timer/expiry branch,
source lines 639-670) exactly when the step is 7 and both
`action_agreed` and `lockin_started` hold. -/
def renders_phaseC (st : WizardState) : Bool :=
  st.step == 7 && st.action_agreed && st.lockin_started

-- -----------------------
-- Verdict engine (spec-modelled; absent from src/)
-- -----------------------

/-- Modelled from the spec: the closed set of verdict labels of the Verdict
Classifier (spec section 3, "Verdict"). The verdict-engine variants the
spec describes are not among the files under `src/`. -/
inductive Verdict where
  | ACT : Verdict
  | REDESIGN : Verdict
  | WAIT : Verdict
  | NO : Verdict
deriving DecidableEq

/-- Modelled from the spec: a ScoreSet over the spec's example dimensions
("Security", "Energy", "Meaning", "Connection", "Freedom") on the signed
-2..2 scale (spec section 3, "ScoreSet"). -/
structure ScoreSet where
  security : Int
  energy : Int
  meaning : Int
  connection : Int
  freedom : Int

/-- Modelled from the spec: the simple sum of all scores, on which the
signed-sum policy branches (spec section 4.3). -/
def ScoreSet.total (s : ScoreSet) : Int :=
  s.security + s.energy + s.meaning + s.connection + s.freedom

/-- Modelled from the spec: "any dimension scoring the minimum (-2)"
(spec section 4.3, signed-sum policy guardrail). -/
def ScoreSet.hasVeto (s : ScoreSet) : Bool :=
  s.security == -2 || s.energy == -2 || s.meaning == -2 ||
    s.connection == -2 || s.freedom == -2

/-- Modelled from the spec: `classify` under the signed-sum policy
(spec section 4.3): the -2 veto is evaluated first and forces the most
negative verdict outright, short-circuiting the branches on the simple sum;
otherwise total > 0 gives ACT, total == 0 with a "high cost of inaction"
or "reduces fragility" signal gives ACT, and anything else falls to the
WAIT/REDESIGN tail (rendered here as WAIT). -/
def classify (s : ScoreSet) (highCostOfInaction reducesFragility : Bool) : Verdict :=
  if s.hasVeto then .NO
  else if s.total > 0 then .ACT
  else if s.total == 0 && (highCostOfInaction || reducesFragility) then .ACT
  else .WAIT

-- -----------------------
-- Supporting lemmas for the claim theorems
-- -----------------------

theorem need_setv_self (st : WizardState) (k : String) (v : Option String) :
    need (setv st k v) k = pystripO v := by
  unfold need setv
  simp only [alist_get_set_self, Option.getD_some]
  unfold pystripO
  exact pystrip_idem _

theorem need_setv_ne (st : WizardState) (k k2 : String) (v : Option String)
    (h : k2 ≠ k) : need (setv st k v) k2 = need st k2 := by
  unfold need setv
  rw [alist_get_set_ne _ _ _ _ h]

theorem step8_noop (o : Oracles) (e : Event) (st : WizardState)
    (h8 : st.step = 8) (hres : is_reset_ev e = false) :
    handle o e st = (st, none) := by
  cases e <;> simp [handle, h8, is_reset_ev] at hres ⊢

theorem run_events_step8 (o : Oracles) (evs : List Event) (st : WizardState)
    (h8 : st.step = 8) (hres : ∀ e ∈ evs, is_reset_ev e = false) :
    run_events o evs st = st := by
  induction evs with
  | nil => rfl
  | cons e rest ih =>
    unfold run_events
    simp only [List.foldl_cons]
    rw [step8_noop o e st h8 (hres e (List.mem_cons_self e rest))]
    exact ih (fun e2 he2 => hres e2 (List.mem_cons_of_mem _ he2))

-- -----------------------
-- Concrete fixtures used by the witness theorems
-- -----------------------

def demo_mirror_json : Json := Json.obj [("want", Json.str "w")]

def demo_action_json : Json :=
  Json.obj [("action", Json.str "a"), ("minutes", Json.num 10)]

/-- A well-behaved collaborator: fixed response contents that parse to the
demo JSON objects. -/
def demo_oracles : Oracles :=
  { api_mirror := fun _ => "MIRROR"
    api_action := fun _ => "ACTION"
    parse := fun s =>
      if s = "MIRROR" then some demo_mirror_json
      else if s = "ACTION" then some demo_action_json
      else none }

/-- A collaborator whose response content never parses as JSON. -/
def bad_oracles : Oracles :=
  { api_mirror := fun _ => "oops"
    api_action := fun _ => "oops"
    parse := fun _ => none }

def demo_st0 : WizardState := init_state
def demo_st1 : WizardState := { init_state with step := 1 }
def demo_st2 : WizardState := { init_state with step := 2 }
def demo_st3 : WizardState := { init_state with step := 3 }
def demo_st4 : WizardState := { init_state with step := 4 }
def demo_st5 : WizardState := { init_state with step := 5 }
def demo_st6 : WizardState := { init_state with step := 6 }

def demo_st6m : WizardState :=
  { init_state with step := 6, mirror := some demo_mirror_json, show_correction := true }

def demo_st7 : WizardState :=
  { init_state with step := 7, mirror := some demo_mirror_json }

def demo_st7c : WizardState :=
  { init_state with
    step := 7
    mirror := some demo_mirror_json
    action_one := some demo_action_json
    show_action_correction := true }

def demo_st7b : WizardState :=
  { init_state with
    step := 7
    mirror := some demo_mirror_json
    action_one := some demo_action_json
    action_agreed := true }

def demo_st8 : WizardState :=
  { init_state with
    step := 8
    did_it := some false
    answers := [("decision", "x")] }

-- -----------------------
-- Claim theorems
-- -----------------------

/-- Claim C2: for every ScoreSet containing some dimension at the
guardrail-triggering minimum (-2 on the signed scale), `classify` returns
the forced-negative verdict regardless of every other dimension's value:
the guardrail/veto check is evaluated strictly before aggregate threshold
banding and short-circuits it. (The verdict engine is modelled from the
spec; it is absent from src/.) -/
theorem c2_veto_invariance (s : ScoreSet) (hc rf : Bool)
    (h : s.security = -2 ∨ s.energy = -2 ∨ s.meaning = -2 ∨
         s.connection = -2 ∨ s.freedom = -2) :
    classify s hc rf = Verdict.NO := by
  unfold classify
  have hv : s.hasVeto = true := by
    unfold ScoreSet.hasVeto
    rcases h with h | h | h | h | h <;> simp [h]
  rw [hv]
  simp

/-- Witness for C2 at the spec's scenario: Security 1, Energy -2, Meaning 0,
Connection 1, Freedom 1 is vetoed even though the simple sum is 1. -/
theorem c2_veto_invariance_witness :
    classify ⟨1, -2, 0, 1, 1⟩ true false = Verdict.NO ∧
    (⟨1, -2, 0, 1, 1⟩ : ScoreSet).total = 1 :=
  ⟨c2_veto_invariance ⟨1, -2, 0, 1, 1⟩ true false (Or.inr (Or.inl rfl)),
   by decide⟩

/-- Claim C6: the reset transition (the Reset button, and "Run another
decision" on the outcome step) sets the step cursor to zero, empties the
answer bag, and clears every piece of derived state back to its initial
value. -/
theorem c6_reset_clears_all (o : Oracles) (st : WizardState) :
    ((handle o .reset st).1.step = 0 ∧
     (handle o .reset st).1.answers = [] ∧
     (handle o .reset st).1.mirror = none ∧
     (handle o .reset st).1.correction = "" ∧
     (handle o .reset st).1.show_correction = false ∧
     (handle o .reset st).1.action_one = none ∧
     (handle o .reset st).1.action_correction = "" ∧
     (handle o .reset st).1.show_action_correction = false ∧
     (handle o .reset st).1.action_agreed = false ∧
     (handle o .reset st).1.lockin_started = false ∧
     (handle o .reset st).1.timer_started_at = none ∧
     (handle o .reset st).1.did_it = none) ∧
    (st.step = 8 → (handle o .run_another st).1 = init_state) := by
  constructor
  · exact ⟨rfl, rfl, rfl, rfl, rfl, rfl, rfl, rfl, rfl, rfl, rfl, rfl⟩
  · intro h8
    simp [handle, h8, go, reset_all, init_state]

/-- Witness for C6: running "Run another decision" from a finished session
returns the initial state. -/
theorem c6_reset_clears_all_witness :
    (handle bad_oracles .run_another demo_st8).1 = init_state ∧
    (handle bad_oracles .reset demo_st8).1.answers = [] :=
  ⟨(c6_reset_clears_all bad_oracles demo_st8).2 rfl,
   (c6_reset_clears_all bad_oracles demo_st8).1.2.1⟩

/-- Claim C7: choosing "Maybe later" on step 7 sets `did_it` to False and
jumps to the outcome step while `lockin_started` stays False, so Phase C
(the timer/expiry branch, which renders only when `lockin_started` is True)
never fires in that run: every later non-reset event leaves the state at the
outcome step, where the Phase C guard is false. -/
theorem c7_maybe_later_timer_unreachable (o : Oracles) (st : WizardState)
    (h7 : st.step = 7) (hA : st.action_agreed = true)
    (hL : st.lockin_started = false) :
    (handle o .maybe_later st).1.did_it = some false ∧
    (handle o .maybe_later st).1.step = 8 ∧
    (handle o .maybe_later st).1.lockin_started = false ∧
    renders_phaseC (handle o .maybe_later st).1 = false ∧
    (∀ evs : List Event, (∀ e ∈ evs, is_reset_ev e = false) →
      run_events o evs (handle o .maybe_later st).1 = (handle o .maybe_later st).1 ∧
      renders_phaseC (run_events o evs (handle o .maybe_later st).1) = false) := by
  have hm : handle o .maybe_later st = (go 8 { st with did_it := some false }, none) := by
    simp [handle, h7, hA, hL]
  rw [hm]
  refine ⟨rfl, rfl, hL, by simp [renders_phaseC, go], ?_⟩
  intro evs hres
  have hrun := run_events_step8 o evs (go 8 { st with did_it := some false }) rfl hres
  exact ⟨hrun, by rw [hrun]; simp [renders_phaseC, go]⟩

/-- Witness for C7 from a concrete Phase B state: "Maybe later" lands on the
outcome step and a later (ignored) non-reset click changes nothing. -/
theorem c7_maybe_later_timer_unreachable_witness :
    (handle bad_oracles .maybe_later demo_st7b).1.step = 8 ∧
    renders_phaseC (handle bad_oracles .maybe_later demo_st7b).1 = false ∧
    run_events bad_oracles [Event.agree, Event.did_yes]
        (handle bad_oracles .maybe_later demo_st7b).1
      = (handle bad_oracles .maybe_later demo_st7b).1 :=
  ⟨(c7_maybe_later_timer_unreachable bad_oracles demo_st7b rfl rfl rfl).2.1,
   (c7_maybe_later_timer_unreachable bad_oracles demo_st7b rfl rfl rfl).2.2.2.1,
   ((c7_maybe_later_timer_unreachable bad_oracles demo_st7b rfl rfl rfl).2.2.2.2
      [Event.agree, Event.did_yes] (by decide)).1⟩

/-- Claim C8 counterexample: a non-numeric string in the AI response's
`minutes` field is NOT recovered silently — `int("soon")` raises an uncaught
`ValueError`, so the normalization fails instead of clamping. -/
theorem c8_minutes_unparseable_raises :
    minutes_of [("minutes", Json.str "soon")] = Except.error "ValueError" := rfl

/-- Claim C8 (amended): an out-of-range or missing/falsy `minutes` field is
silently replaced by a member of the declared set {10, 15, 20, 30, 45, 60}
(anything outside the set becomes 10), so whenever the normalization
completes, the value used for the time box is a member of that set; a
non-numeric string, however, raises an uncaught `ValueError` instead of
being silently recovered. -/
theorem c8_minutes_in_set (a : List (String × Json)) (m : Int)
    (h : minutes_of a = Except.ok m) : m ∈ allowed_minutes := by
  simp only [minutes_of] at h
  split at h
  · rename_i m0 heq
    injection h with h2
    subst h2
    split
    · rename_i hC
      simpa [allowed_minutes] using hC
    · decide
  · exact absurd h (by simp)

/-- Witness for C8's amended theorem: the out-of-range value 12 is silently
replaced by 10, a member of the declared set. -/
theorem c8_minutes_in_set_witness :
    minutes_of [("minutes", Json.num 12)] = Except.ok 10 ∧
    (10 : Int) ∈ allowed_minutes :=
  ⟨rfl, c8_minutes_in_set [("minutes", Json.num 12)] 10 rfl⟩

/-- Claim C9: `strip_tags` returns a string containing no `<` and no `>`
characters, `safe_text` returns that string HTML-escaped, and every
model-provided field rendered inside the verdict box's `unsafe_allow_html`
block has passed through `safe_text` and contains no HTML tags (no angle
brackets at all). -/
theorem c9_sanitizer_no_tags (s w a d b : Option String) :
    (∀ c ∈ (strip_tags s).toList, c ≠ '<' ∧ c ≠ '>') ∧
    safe_text s = String.mk (html_escape_list (strip_tags s).toList) ∧
    (∀ f ∈ verdict_box_fields w a d b, ∀ c ∈ f.toList, c ≠ '<' ∧ c ≠ '>') := by
  refine ⟨strip_tags_no_angle s, rfl, ?_⟩
  intro f hf
  simp only [verdict_box_fields, List.mem_cons, List.not_mem_nil, or_false] at hf
  rcases hf with rfl | rfl | rfl | rfl <;> exact safe_text_no_angle _

/-- Witness for C9 on a concrete tagged input. -/
theorem c9_sanitizer_no_tags_witness :
    ('h' ≠ '<' ∧ 'h' ≠ '>') ∧
    safe_text (some "x") = String.mk (html_escape_list (strip_tags (some "x")).toList) :=
  ⟨(c9_sanitizer_no_tags (some " <b>hi</b> ") none none none none).1 'h' (by decide),
   (c9_sanitizer_no_tags (some "x") none none none none).2.1⟩

/-- Claim C10: every value written to the answer bag via `setv` is a
whitespace-stripped string (None degrades to the empty string); `need`
returns a stripped string for every key and the empty string when the key
is absent; hence the required-field check `not need(key)` is true exactly
when the stored answer is empty or whitespace-only. -/
theorem c10_answer_bag_stripped (st : WizardState) (k k2 : String)
    (v : Option String) :
    alist_get (setv st k v).answers k = some (pystripO v) ∧
    pystrip (pystripO v) = pystripO v ∧
    (alist_get st.answers k2 = none → need st k2 = "") ∧
    pystrip (need st k2) = need st k2 ∧
    (need st k2 = "" ↔
      ∀ c ∈ ((alist_get st.answers k2).getD "").toList, py_isspace c = true) := by
  refine ⟨?_, pystrip_idem _, ?_, ?_, ?_⟩
  · unfold setv
    simp [alist_get_set_self]
  · intro h
    unfold need
    rw [h]
    rfl
  · unfold need
    exact pystrip_idem _
  · unfold need
    exact pystrip_eq_empty_iff _

/-- Witness for C10: storing a padded value keeps only its stripped form,
and `need` on an absent key is empty. -/
theorem c10_answer_bag_stripped_witness :
    alist_get (setv init_state "decision" (some "  hi  ")).answers "decision"
      = some "hi" ∧
    need init_state "decision" = "" :=
  ⟨((c10_answer_bag_stripped init_state "decision" "decision"
        (some "  hi  ")).1).trans (by rfl),
   (c10_answer_bag_stripped init_state "decision" "decision"
        (some "  hi  ")).2.2.1 rfl⟩

/-- Claim C1: derived state is never presented as fresh after an upstream
answer mutation. Advancing past the values step (step 5's "next") resets
mirror, action_one, timer_started_at, did_it and all correction/agreement
flags to their empty defaults; pressing "back" from the mirror step (6) or
the action step (7, proposal phase) sets the respective derived artifact to
None; and a render of the step that reads a None artifact recomputes it. -/
theorem c1_derived_state_invalidated (o : Oracles) (st : WizardState)
    (v1 v2 v3 : Option String) (j ja : Json) :
    (pystripO v1 ≠ "" → pystripO v2 ≠ "" → pystripO v3 ≠ "" →
      ((step5_next st v1 v2 v3).1.mirror = none ∧
       (step5_next st v1 v2 v3).1.action_one = none ∧
       (step5_next st v1 v2 v3).1.timer_started_at = none ∧
       (step5_next st v1 v2 v3).1.did_it = none ∧
       (step5_next st v1 v2 v3).1.correction = "" ∧
       (step5_next st v1 v2 v3).1.show_correction = false ∧
       (step5_next st v1 v2 v3).1.action_correction = "" ∧
       (step5_next st v1 v2 v3).1.show_action_correction = false ∧
       (step5_next st v1 v2 v3).1.action_agreed = false ∧
       (step5_next st v1 v2 v3).1.lockin_started = false ∧
       (step5_next st v1 v2 v3).1.step = 6)) ∧
    (st.step = 6 →
      (handle o .back6 st).1.mirror = none ∧ (handle o .back6 st).1.step = 5) ∧
    (st.step = 7 → st.action_agreed = false →
      (handle o .back7 st).1.action_one = none ∧ (handle o .back7 st).1.step = 6) ∧
    (st.mirror = none →
      o.parse (pystripO (some (o.api_mirror (mirror_payload st.answers none)))) = some j →
      render6_compute o st = ({ st with mirror := some j }, none)) ∧
    (st.action_one = none →
      o.parse (pystripO (some (o.api_action
          (action_payload st.answers (st.mirror.getD (Json.obj [])) none)))) = some ja →
      render7_compute o st = ({ st with action_one := some ja }, none)) := by
  refine ⟨?_, ?_, ?_, ?_, ?_⟩
  · intro h1 h2 h3
    unfold step5_next
    rw [if_neg (not_not_intro ⟨h1, h2, h3⟩)]
    exact ⟨rfl, rfl, rfl, rfl, rfl, rfl, rfl, rfl, rfl, rfl, rfl⟩
  · intro h6
    constructor <;> simp [handle, h6, go]
  · intro h7 hA
    constructor <;> simp [handle, h7, hA, go]
  · intro hm hp
    unfold render6_compute ai_mirror safe_json_loads
    rw [hm]
    simp only [hp]
  · intro ha hp
    unfold render7_compute ai_one_thing safe_json_loads
    rw [ha]
    simp only [hp]

/-- Witness for C1: a successful step-5 "next" clears the mirror, "back"
from step 6 discards the mirror, "back" from step 7 discards the action,
and a step-6 render with no mirror recomputes it from the collaborator. -/
theorem c1_derived_state_invalidated_witness :
    (step5_next demo_st5 (some "a") (some "b") (some "c")).1.mirror = none ∧
    (handle demo_oracles .back6 demo_st6m).1.mirror = none ∧
    (handle demo_oracles .back7 demo_st7).1.action_one = none ∧
    render6_compute demo_oracles demo_st6
      = ({ demo_st6 with mirror := some demo_mirror_json }, none) :=
  ⟨((c1_derived_state_invalidated demo_oracles demo_st5 (some "a") (some "b")
      (some "c") demo_mirror_json demo_action_json).1
      (by decide) (by decide) (by decide)).1,
   ((c1_derived_state_invalidated demo_oracles demo_st6m (some "a") (some "b")
      (some "c") demo_mirror_json demo_action_json).2.1 rfl).1,
   ((c1_derived_state_invalidated demo_oracles demo_st7 (some "a") (some "b")
      (some "c") demo_mirror_json demo_action_json).2.2.1 rfl rfl).1,
   (c1_derived_state_invalidated demo_oracles demo_st6 (some "a") (some "b")
      (some "c") demo_mirror_json demo_action_json).2.2.2.1 rfl (by rfl)⟩

/-- Claim C3: a collaborator response whose content does not parse as JSON
makes the derived-state computation of the reading step fail hard — the
error is surfaced, no default object is substituted for the missing
top-level result (the artifact stays None), and the step cursor is
unchanged, so the user remains on the current step and can retry. -/
theorem c3_parse_failure_surfaced (o : Oracles) (st : WizardState) :
    (st.mirror = none →
      o.parse (pystripO (some (o.api_mirror (mirror_payload st.answers none)))) = none →
      render6_compute o st = (st, some "JSONDecodeError")) ∧
    (st.action_one = none →
      o.parse (pystripO (some (o.api_action
          (action_payload st.answers (st.mirror.getD (Json.obj [])) none)))) = none →
      render7_compute o st = (st, some "JSONDecodeError")) := by
  constructor
  · intro hm hp
    unfold render6_compute ai_mirror safe_json_loads
    rw [hm]
    simp only [hp]
  · intro ha hp
    unfold render7_compute ai_one_thing safe_json_loads
    rw [ha]
    simp only [hp]

/-- Witness for C3: with a collaborator that returns unparseable content,
the step-6 and step-7 renders surface the parse failure and leave the
state — including the cursor and the absent artifact — unchanged. -/
theorem c3_parse_failure_surfaced_witness :
    render6_compute bad_oracles demo_st6 = (demo_st6, some "JSONDecodeError") ∧
    render7_compute bad_oracles demo_st7 = (demo_st7, some "JSONDecodeError") :=
  ⟨(c3_parse_failure_surfaced bad_oracles demo_st6).1 rfl rfl,
   (c3_parse_failure_surfaced bad_oracles demo_st7).2 rfl rfl⟩

/-- The five single-field data steps share one handler shape: write back the
widget value, refuse with a message when the stripped answer is empty,
otherwise advance to the target step. -/
theorem data_next_spec (st : WizardState) (key msg : String) (tgt : Nat)
    (v : Option String) (r : WizardState × Option String)
    (hr : r = (if need (setv st key v) key = "" then (setv st key v, some msg)
               else (go tgt (setv st key v), none))) :
    (pystripO v = "" → r.1.step = st.step ∧ r.2.isSome = true ∧
       ∀ k2, k2 ≠ key → alist_get r.1.answers k2 = alist_get st.answers k2) ∧
    (pystripO v ≠ "" → r.1.step = tgt ∧ r.2 = none ∧
       alist_get r.1.answers key = some (pystripO v) ∧
       ∀ k2, k2 ≠ key → alist_get r.1.answers k2 = alist_get st.answers k2) := by
  constructor
  · intro hemp
    have hc : need (setv st key v) key = "" := by rw [need_setv_self, hemp]
    rw [hr, if_pos hc]
    exact ⟨rfl, rfl, fun k2 hk2 => alist_get_set_ne _ _ _ _ hk2⟩
  · intro hne
    have hc : need (setv st key v) key ≠ "" := by rw [need_setv_self]; exact hne
    rw [hr, if_neg hc]
    exact ⟨rfl, rfl, alist_get_set_self _ _ _,
      fun k2 hk2 => alist_get_set_ne _ _ _ _ hk2⟩

/-- Claim C4: on every data-collection step (0 through 5), a "next" with an
empty required answer (for step 5: any one of the three values empty)
leaves the step cursor unchanged and surfaces a validation error while
losing no stored answers; with all required answers non-empty it advances
the cursor by exactly one (and stores the stripped answer). -/
theorem c4_next_validation (o : Oracles) (st : WizardState)
    (v v1 v2 v3 : Option String) :
    (st.step = 0 →
      (pystripO v = "" →
        (handle o (.next0 v) st).1.step = st.step ∧
        (handle o (.next0 v) st).2.isSome = true ∧
        (∀ k2, k2 ≠ "decision" →
          alist_get (handle o (.next0 v) st).1.answers k2 = alist_get st.answers k2)) ∧
      (pystripO v ≠ "" →
        (handle o (.next0 v) st).1.step = st.step + 1 ∧
        (handle o (.next0 v) st).2 = none ∧
        alist_get (handle o (.next0 v) st).1.answers "decision" = some (pystripO v) ∧
        (∀ k2, k2 ≠ "decision" →
          alist_get (handle o (.next0 v) st).1.answers k2 = alist_get st.answers k2))) ∧
    (st.step = 1 →
      (pystripO v = "" →
        (handle o (.next1 v) st).1.step = st.step ∧
        (handle o (.next1 v) st).2.isSome = true ∧
        (∀ k2, k2 ≠ "why_matters" →
          alist_get (handle o (.next1 v) st).1.answers k2 = alist_get st.answers k2)) ∧
      (pystripO v ≠ "" →
        (handle o (.next1 v) st).1.step = st.step + 1 ∧
        (handle o (.next1 v) st).2 = none ∧
        alist_get (handle o (.next1 v) st).1.answers "why_matters" = some (pystripO v) ∧
        (∀ k2, k2 ≠ "why_matters" →
          alist_get (handle o (.next1 v) st).1.answers k2 = alist_get st.answers k2))) ∧
    (st.step = 2 →
      (pystripO v = "" →
        (handle o (.next2 v) st).1.step = st.step ∧
        (handle o (.next2 v) st).2.isSome = true ∧
        (∀ k2, k2 ≠ "why_not_yet" →
          alist_get (handle o (.next2 v) st).1.answers k2 = alist_get st.answers k2)) ∧
      (pystripO v ≠ "" →
        (handle o (.next2 v) st).1.step = st.step + 1 ∧
        (handle o (.next2 v) st).2 = none ∧
        alist_get (handle o (.next2 v) st).1.answers "why_not_yet" = some (pystripO v) ∧
        (∀ k2, k2 ≠ "why_not_yet" →
          alist_get (handle o (.next2 v) st).1.answers k2 = alist_get st.answers k2))) ∧
    (st.step = 3 →
      (pystripO v = "" →
        (handle o (.next3 v) st).1.step = st.step ∧
        (handle o (.next3 v) st).2.isSome = true ∧
        (∀ k2, k2 ≠ "if_dont" →
          alist_get (handle o (.next3 v) st).1.answers k2 = alist_get st.answers k2)) ∧
      (pystripO v ≠ "" →
        (handle o (.next3 v) st).1.step = st.step + 1 ∧
        (handle o (.next3 v) st).2 = none ∧
        alist_get (handle o (.next3 v) st).1.answers "if_dont" = some (pystripO v) ∧
        (∀ k2, k2 ≠ "if_dont" →
          alist_get (handle o (.next3 v) st).1.answers k2 = alist_get st.answers k2))) ∧
    (st.step = 4 →
      (pystripO v = "" →
        (handle o (.next4 v) st).1.step = st.step ∧
        (handle o (.next4 v) st).2.isSome = true ∧
        (∀ k2, k2 ≠ "if_do" →
          alist_get (handle o (.next4 v) st).1.answers k2 = alist_get st.answers k2)) ∧
      (pystripO v ≠ "" →
        (handle o (.next4 v) st).1.step = st.step + 1 ∧
        (handle o (.next4 v) st).2 = none ∧
        alist_get (handle o (.next4 v) st).1.answers "if_do" = some (pystripO v) ∧
        (∀ k2, k2 ≠ "if_do" →
          alist_get (handle o (.next4 v) st).1.answers k2 = alist_get st.answers k2))) ∧
    (st.step = 5 →
      ((pystripO v1 = "" ∨ pystripO v2 = "" ∨ pystripO v3 = "") →
        (handle o (.next5 v1 v2 v3) st).1.step = st.step ∧
        (handle o (.next5 v1 v2 v3) st).2.isSome = true ∧
        (∀ k2, k2 ≠ "value_1" → k2 ≠ "value_2" → k2 ≠ "value_3" →
          alist_get (handle o (.next5 v1 v2 v3) st).1.answers k2
            = alist_get st.answers k2)) ∧
      (pystripO v1 ≠ "" → pystripO v2 ≠ "" → pystripO v3 ≠ "" →
        (handle o (.next5 v1 v2 v3) st).1.step = st.step + 1 ∧
        (handle o (.next5 v1 v2 v3) st).2 = none ∧
        (∀ k2, k2 ≠ "value_1" → k2 ≠ "value_2" → k2 ≠ "value_3" →
          alist_get (handle o (.next5 v1 v2 v3) st).1.answers k2
            = alist_get st.answers k2))) := by
  refine ⟨?_, ?_, ?_, ?_, ?_, ?_⟩
  · intro hk
    have hh : handle o (.next0 v) st = step0_next st v := by simp [handle, hk]
    have hspec := data_next_spec st "decision" "Write the decision in one sentence."
      1 v (step0_next st v) rfl
    rw [hh]
    refine ⟨hspec.1, fun hne => ?_⟩
    obtain ⟨hstep, hnone, hstore, hpres⟩ := hspec.2 hne
    rw [hk]
    exact ⟨hstep, hnone, hstore, hpres⟩
  · intro hk
    have hh : handle o (.next1 v) st = step1_next st v := by simp [handle, hk]
    have hspec := data_next_spec st "why_matters" "Write one short paragraph."
      2 v (step1_next st v) rfl
    rw [hh]
    refine ⟨hspec.1, fun hne => ?_⟩
    obtain ⟨hstep, hnone, hstore, hpres⟩ := hspec.2 hne
    rw [hk]
    exact ⟨hstep, hnone, hstore, hpres⟩
  · intro hk
    have hh : handle o (.next2 v) st = step2_next st v := by simp [handle, hk]
    have hspec := data_next_spec st "why_not_yet" "Write one short paragraph."
      3 v (step2_next st v) rfl
    rw [hh]
    refine ⟨hspec.1, fun hne => ?_⟩
    obtain ⟨hstep, hnone, hstore, hpres⟩ := hspec.2 hne
    rw [hk]
    exact ⟨hstep, hnone, hstore, hpres⟩
  · intro hk
    have hh : handle o (.next3 v) st = step3_next st v := by simp [handle, hk]
    have hspec := data_next_spec st "if_dont" "Write one short paragraph."
      4 v (step3_next st v) rfl
    rw [hh]
    refine ⟨hspec.1, fun hne => ?_⟩
    obtain ⟨hstep, hnone, hstore, hpres⟩ := hspec.2 hne
    rw [hk]
    exact ⟨hstep, hnone, hstore, hpres⟩
  · intro hk
    have hh : handle o (.next4 v) st = step4_next st v := by simp [handle, hk]
    have hspec := data_next_spec st "if_do" "Write one short paragraph."
      5 v (step4_next st v) rfl
    rw [hh]
    refine ⟨hspec.1, fun hne => ?_⟩
    obtain ⟨hstep, hnone, hstore, hpres⟩ := hspec.2 hne
    rw [hk]
    exact ⟨hstep, hnone, hstore, hpres⟩
  · intro hk
    have hh : handle o (.next5 v1 v2 v3) st = step5_next st v1 v2 v3 := by
      simp [handle, hk]
    rw [hh]
    constructor
    · intro hemp
      have hcond : ¬(pystripO v1 ≠ "" ∧ pystripO v2 ≠ "" ∧ pystripO v3 ≠ "") := by
        intro hc
        rcases hemp with h | h | h
        · exact hc.1 h
        · exact hc.2.1 h
        · exact hc.2.2 h
      unfold step5_next
      rw [if_pos hcond]
      refine ⟨rfl, rfl, fun k2 h1 h2 h3 => ?_⟩
      show alist_get (alist_set (alist_set (alist_set st.answers "value_1" _)
        "value_2" _) "value_3" _) k2 = _
      rw [alist_get_set_ne _ _ _ _ h3, alist_get_set_ne _ _ _ _ h2,
        alist_get_set_ne _ _ _ _ h1]
    · intro h1 h2 h3
      unfold step5_next
      rw [if_neg (not_not_intro ⟨h1, h2, h3⟩)]
      rw [hk]
      refine ⟨rfl, rfl, fun k2 hk1 hk2 hk3 => ?_⟩
      show alist_get (alist_set (alist_set (alist_set st.answers "value_1" _)
        "value_2" _) "value_3" _) k2 = _
      rw [alist_get_set_ne _ _ _ _ hk3, alist_get_set_ne _ _ _ _ hk2,
        alist_get_set_ne _ _ _ _ hk1]

/-- Witness for C4: one empty and one successful "next" on each of the six
data-collection steps, from concrete states. -/
theorem c4_next_validation_witness :
    ((handle demo_oracles (.next0 none) demo_st0).1.step = 0 ∧
     (handle demo_oracles (.next0 (some "d")) demo_st0).1.step = 1) ∧
    ((handle demo_oracles (.next1 (some " ")) demo_st1).1.step = 1 ∧
     (handle demo_oracles (.next1 (some "m")) demo_st1).1.step = 2) ∧
    ((handle demo_oracles (.next2 none) demo_st2).1.step = 2 ∧
     (handle demo_oracles (.next2 (some "n")) demo_st2).1.step = 3) ∧
    ((handle demo_oracles (.next3 none) demo_st3).1.step = 3 ∧
     (handle demo_oracles (.next3 (some "w")) demo_st3).1.step = 4) ∧
    ((handle demo_oracles (.next4 none) demo_st4).1.step = 4 ∧
     (handle demo_oracles (.next4 (some "b")) demo_st4).1.step = 5) ∧
    ((handle demo_oracles (.next5 (some "a") none (some "c")) demo_st5).1.step = 5 ∧
     (handle demo_oracles (.next5 (some "a") (some "b") (some "c")) demo_st5).1.step = 6) :=
  ⟨⟨((c4_next_validation demo_oracles demo_st0 none none none none).1 rfl).1 rfl |>.1,
    ((c4_next_validation demo_oracles demo_st0 (some "d") none none none).1 rfl).2
      (by decide) |>.1⟩,
   ⟨((c4_next_validation demo_oracles demo_st1 (some " ") none none none).2.1 rfl).1
      (by decide) |>.1,
    ((c4_next_validation demo_oracles demo_st1 (some "m") none none none).2.1 rfl).2
      (by decide) |>.1⟩,
   ⟨((c4_next_validation demo_oracles demo_st2 none none none none).2.2.1 rfl).1 rfl |>.1,
    ((c4_next_validation demo_oracles demo_st2 (some "n") none none none).2.2.1 rfl).2
      (by decide) |>.1⟩,
   ⟨((c4_next_validation demo_oracles demo_st3 none none none none).2.2.2.1 rfl).1 rfl |>.1,
    ((c4_next_validation demo_oracles demo_st3 (some "w") none none none).2.2.2.1 rfl).2
      (by decide) |>.1⟩,
   ⟨((c4_next_validation demo_oracles demo_st4 none none none none).2.2.2.2.1 rfl).1 rfl |>.1,
    ((c4_next_validation demo_oracles demo_st4 (some "b") none none none).2.2.2.2.1 rfl).2
      (by decide) |>.1⟩,
   ⟨((c4_next_validation demo_oracles demo_st5 none (some "a") none (some "c")).2.2.2.2.2
      rfl).1 (Or.inr (Or.inl rfl)) |>.1,
    ((c4_next_validation demo_oracles demo_st5 none (some "a") (some "b") (some "c")).2.2.2.2.2
      rfl).2 (by decide) (by decide) (by decide) |>.1⟩⟩

/-- Claim C5: the correct-and-redo transitions ("Redo verdict ➜" on step 6
with a non-empty correction, and "Adjust the step ➜" on step 7) replace
only the targeted derived artifact with a recomputation whose request
payload carries the correction text, and leave the raw answer bag and the
step cursor unchanged. -/
theorem c5_correct_and_redo (o : Oracles) (st : WizardState)
    (c : Option String) (j ja : Json) :
    (st.step = 6 → st.show_correction = true → pystripO c ≠ "" →
      ai_mirror o st.answers (some (pystripO c)) = .ok j →
      ((handle o (.redo c) st).1.mirror = some j ∧
       (handle o (.redo c) st).1.answers = st.answers ∧
       (handle o (.redo c) st).1.step = st.step ∧
       (handle o (.redo c) st).1.action_one = st.action_one ∧
       (handle o (.redo c) st).2 = none ∧
       alist_get (mirror_payload st.answers (some (pystripO c))) "correction_if_any"
         = some (Json.str (pystripO c)))) ∧
    (st.step = 7 → st.action_agreed = false → st.show_action_correction = true →
      pystripO c ≠ "" →
      ai_one_thing o st.answers (st.mirror.getD (Json.obj [])) (some (pystripO c)) = .ok ja →
      ((handle o (.adjust c) st).1.action_one = some ja ∧
       (handle o (.adjust c) st).1.answers = st.answers ∧
       (handle o (.adjust c) st).1.step = st.step ∧
       (handle o (.adjust c) st).1.mirror = st.mirror ∧
       (handle o (.adjust c) st).2 = none ∧
       alist_get (action_payload st.answers (st.mirror.getD (Json.obj []))
           (some (pystripO c))) "correction_if_any"
         = some (Json.str (pystripO c)))) := by
  have hids : pystripO (some (pystripO c)) = pystripO c := pystrip_idem _
  constructor
  · intro h6 hsc hne hai
    have hh : handle o (.redo c) st
        = redo_verdict o { st with correction := pystripO c } := by
      simp [handle, h6, hsc]
    have hred : redo_verdict o { st with correction := pystripO c }
        = ({ st with
              correction := pystripO c
              mirror := some j
              show_correction := false }, none) := by
      unfold redo_verdict
      rw [if_neg hne]
      show (match ai_mirror o st.answers (some (pystripO c)) with
            | .ok m => _ | .error e => _) = _
      rw [hai]
    rw [hh, hred]
    refine ⟨rfl, rfl, rfl, rfl, rfl, ?_⟩
    have hpay : alist_get (mirror_payload st.answers (some (pystripO c)))
        "correction_if_any"
        = some (if pystripO (some (pystripO c)) = "" then Json.null
                else Json.str (pystripO (some (pystripO c)))) := rfl
    rw [hpay, hids, if_neg hne]
  · intro h7 hag hsac hne hai
    have hh : handle o (.adjust c) st
        = adjust_step o { st with action_correction := pystripO c } := by
      simp [handle, h7, hag, hsac]
    have hadj : adjust_step o { st with action_correction := pystripO c }
        = ({ st with
              action_correction := pystripO c
              action_one := some ja
              show_action_correction := false }, none) := by
      unfold adjust_step
      rw [if_neg hne]
      show (match ai_one_thing o st.answers (st.mirror.getD (Json.obj []))
              (some (pystripO c)) with
            | .ok a => _ | .error e => _) = _
      rw [hai]
    rw [hh, hadj]
    refine ⟨rfl, rfl, rfl, rfl, rfl, ?_⟩
    have hpay : alist_get (action_payload st.answers (st.mirror.getD (Json.obj []))
        (some (pystripO c))) "correction_if_any"
        = some (if pystripO (some (pystripO c)) = "" then Json.null
                else Json.str (pystripO (some (pystripO c)))) := rfl
    rw [hpay, hids, if_neg hne]

/-- Witness for C5: a concrete redo and a concrete adjust against the demo
collaborator leave the answers and the cursor unchanged while replacing the
targeted artifact. -/
theorem c5_correct_and_redo_witness :
    (handle demo_oracles (.redo (some "wrong")) demo_st6m).1.mirror
      = some demo_mirror_json ∧
    (handle demo_oracles (.redo (some "wrong")) demo_st6m).1.step = 6 ∧
    (handle demo_oracles (.adjust (some "tweak")) demo_st7c).1.action_one
      = some demo_action_json ∧
    (handle demo_oracles (.adjust (some "tweak")) demo_st7c).1.answers
      = demo_st7c.answers :=
  ⟨((c5_correct_and_redo demo_oracles demo_st6m (some "wrong") demo_mirror_json
      demo_action_json).1 rfl rfl (by decide) (by rfl)).1,
   ((c5_correct_and_redo demo_oracles demo_st6m (some "wrong") demo_mirror_json
      demo_action_json).1 rfl rfl (by decide) (by rfl)).2.2.1,
   ((c5_correct_and_redo demo_oracles demo_st7c (some "tweak") demo_mirror_json
      demo_action_json).2 rfl rfl rfl (by decide) (by rfl)).1,
   ((c5_correct_and_redo demo_oracles demo_st7c (some "tweak") demo_mirror_json
      demo_action_json).2 rfl rfl rfl (by decide) (by rfl)).2.1⟩

end Scorecard
